import Mathlib

set_option maxRecDepth 8000

/-!
Verification development for the notes application core:
the editing buffer (src/app/state.rs) and the autosave journal runtime
(src/journaling/autosave.rs), embedded shallowly.

Text buffers are lists of Unicode scalar values; cursor positions are
byte offsets, as in the source, with UTF-8 byte lengths computed
explicitly.
-/

namespace NotesApp

/-- UTF-8 encoded length of a Unicode scalar value (Rust `char::len_utf8`). -/
def utf8Len (c : Char) : Nat :=
  if c.toNat < 0x80 then 1
  else if c.toNat < 0x800 then 2
  else if c.toNat < 0x10000 then 3
  else 4

/-- Total UTF-8 byte length of a buffer (Rust `str::len`). -/
def byteLen (s : List Char) : Nat := (s.map utf8Len).sum

/-- Prefix of a buffer up to a byte offset (Rust slicing `&s[..n]`).
All offsets fed to this function by the editor are scalar-value boundaries. -/
def takeBytes : List Char → Nat → List Char
  | [], _ => []
  | c :: rest, n => if utf8Len c ≤ n then c :: takeBytes rest (n - utf8Len c) else []

/-- Suffix of a buffer from a byte offset (Rust slicing `&s[n..]`). -/
def dropBytes : List Char → Nat → List Char
  | [], _ => []
  | c :: rest, n => if n = 0 then c :: rest else dropBytes rest (n - utf8Len c)

/-- Sub-slice of a buffer between two byte offsets (Rust `&s[a..b]`). -/
def sliceBytes (s : List Char) (a b : Nat) : List Char :=
  takeBytes (dropBytes s a) (b - a)

/-- The Unicode White_Space property, as used by Rust `char::is_whitespace`
and therefore by `str::trim`. -/
def rustIsWhitespace (c : Char) : Bool :=
  c.toNat = 0x9 ∨ c.toNat = 0xA ∨ c.toNat = 0xB ∨ c.toNat = 0xC ∨ c.toNat = 0xD ∨
  c.toNat = 0x20 ∨ c.toNat = 0x85 ∨ c.toNat = 0xA0 ∨ c.toNat = 0x1680 ∨
  (0x2000 ≤ c.toNat ∧ c.toNat ≤ 0x200A) ∨ c.toNat = 0x2028 ∨ c.toNat = 0x2029 ∨
  c.toNat = 0x202F ∨ c.toNat = 0x205F ∨ c.toNat = 0x3000

/-- Modelled from the spec: the buffer code delegates grapheme segmentation to
the external `unicode_segmentation` crate, which is not part of this
repository. Following the glossary (a grapheme cluster "may span multiple
Unicode codepoints" and combining characters must "never get split"), we model
a combining mark (Combining Diacritical Marks, U+0300 to U+036F) as extending
the cluster that precedes it; every other scalar value starts a new cluster. -/
def isCombiningMark (c : Char) : Bool :=
  0x300 ≤ c.toNat ∧ c.toNat ≤ 0x36F

/-- Accumulator loop for `graphemes`: `cur` is the current cluster, reversed. -/
def graphemesAux (cur : List Char) : List Char → List (List Char)
  | [] => [cur.reverse]
  | c :: rest =>
    if isCombiningMark c then graphemesAux (c :: cur) rest
    else cur.reverse :: graphemesAux [c] rest

/-- Modelled from the spec: segmentation of a buffer into grapheme clusters
(the crate function `str::graphemes`), under the combining-mark model above. -/
def graphemes : List Char → List (List Char)
  | [] => []
  | c :: rest => graphemesAux [c] rest

/-- Byte offsets of all grapheme-cluster boundaries of a buffer
(including 0 and the total length). -/
def graphemeBoundaries (s : List Char) : List Nat :=
  (graphemes s).foldl (fun acc g => acc ++ [acc.getLastD 0 + byteLen g]) [0]

/-- A byte offset lies on a grapheme-cluster boundary of the buffer. -/
def isGraphemeBoundary (s : List Char) (n : Nat) : Bool :=
  (graphemeBoundaries s).contains n

/-- Byte offset of the start of the last grapheme cluster of a buffer. -/
def lastGraphemeStart (s : List Char) : Nat :=
  byteLen s - byteLen ((graphemes s).getLastD [])

/-- Embeds `prev_grapheme_boundary` from src/app/state.rs: the start of the last
grapheme cluster of the prefix `text[..cursor]`, or 0 at the left edge. -/
def prev_grapheme_boundary (text : List Char) (cursor : Nat) : Nat :=
  if cursor = 0 then 0
  else lastGraphemeStart (takeBytes text cursor)

/-- Embeds `next_grapheme_boundary` from src/app/state.rs: the end of the first
grapheme cluster of the suffix `text[cursor..]`, clamped to the length. -/
def next_grapheme_boundary (text : List Char) (cursor : Nat) : Nat :=
  if byteLen text ≤ cursor then byteLen text
  else
    match graphemes (dropBytes text cursor) with
    | [] => byteLen text
    | g :: _ => cursor + byteLen g

/-- Loop of `line_start`: byte offset just after the last newline of the
prefix (Rust `rfind` of a newline plus one), defaulting to 0. -/
def lineStartAux : List Char → Nat → Nat → Nat
  | [], _, acc => acc
  | c :: rest, pos, acc =>
    let pos' := pos + utf8Len c
    if c = '\n' then lineStartAux rest pos' pos' else lineStartAux rest pos' acc

/-- Embeds `line_start` from src/app/state.rs. -/
def line_start (text : List Char) (cursor : Nat) : Nat :=
  lineStartAux (takeBytes text cursor) 0 0

/-- Loop of `line_end`: byte offset of the first newline of the suffix. -/
def lineEndAux : List Char → Nat → Option Nat
  | [], _ => none
  | c :: rest, pos => if c = '\n' then some pos else lineEndAux rest (pos + utf8Len c)

/-- Embeds `line_end` from src/app/state.rs. -/
def line_end (text : List Char) (cursor : Nat) : Nat :=
  match lineEndAux (dropBytes text cursor) 0 with
  | some off => cursor + off
  | none => byteLen text

/-- Embeds `column_at` from src/app/state.rs: graphemes between line start and cursor. -/
def column_at (text : List Char) (ls cursor : Nat) : Nat :=
  (graphemes (sliceBytes text ls cursor)).length

/-- Loop of `position_for_column`: walk clusters until the target column. -/
def pfcAux : List (List Char) → Nat → Nat → Nat → Nat × Nat
  | [], pos, count, _ => (pos, count)
  | g :: rest, pos, count, column =>
    if column ≤ count then (pos, count)
    else pfcAux rest (pos + byteLen g) (count + 1) column

/-- Embeds `position_for_column` from src/app/state.rs. -/
def position_for_column (text : List Char) (ls column : Nat) : Nat :=
  let le := line_end text ls
  let pc := pfcAux (graphemes (sliceBytes text ls le)) ls 0 column
  if pc.2 < column then le else pc.1

/-- The editing buffer state, `EditorState` from src/app/state.rs
(only the fields the editor operations touch). -/
structure EditorState where
  note_id : Int
  buffer : List Char
  cursor : Nat
  dirty : Bool
  preferred_column : Option Nat
  history : List (List Char)
  history_index : Nat
deriving Repr, DecidableEq

namespace EditorState

/-- Embeds `EditorState::new`: cursor at the end, history seeded with the buffer. -/
def new (note_id : Int) (buffer : List Char) : EditorState :=
  { note_id := note_id
    buffer := buffer
    cursor := byteLen buffer
    dirty := false
    preferred_column := none
    history := [buffer]
    history_index := 0 }

/-- Embeds `EditorState::mark_clean`: clear the dirty flag and collapse history. -/
def mark_clean (e : EditorState) : EditorState :=
  { e with dirty := false, history := [e.buffer], history_index := 0 }

/-- The history after truncating at the current index and appending the
current buffer (the `truncate` plus `push` steps of `record_history`). -/
def pushedHistory (e : EditorState) : List (List Char) :=
  e.history.take (e.history_index + 1) ++ [e.buffer]

/-- Embeds `EditorState::record_history` with `MAX_HISTORY = 200`: truncate after
the current index, append the buffer, evict oldest entries past the bound. -/
def record_history (e : EditorState) : EditorState :=
  if e.history.get? e.history_index = some e.buffer then e
  else if 200 < (pushedHistory e).length then
    { e with history := (pushedHistory e).drop ((pushedHistory e).length - 200)
             history_index := ((pushedHistory e).drop ((pushedHistory e).length - 200)).length - 1 }
  else
    { e with history := pushedHistory e, history_index := (pushedHistory e).length - 1 }

/-- Embeds `EditorState::after_edit`: set dirty and record a history snapshot. -/
def after_edit (e : EditorState) : EditorState :=
  record_history { e with dirty := true }

/-- Embeds `EditorState::restore_history_snapshot`. -/
def restore_history_snapshot (e : EditorState) : EditorState :=
  match e.history.get? e.history_index with
  | some snapshot =>
    { e with buffer := snapshot
             cursor := if byteLen snapshot < e.cursor then byteLen snapshot else e.cursor
             dirty := e.history_index ≠ 0
             preferred_column := none }
  | none => e

/-- Embeds `EditorState::insert_char`. -/
def insert_char (e : EditorState) (ch : Char) : Bool × EditorState :=
  (true,
    after_edit
      { e with buffer := takeBytes e.buffer e.cursor ++ ch :: dropBytes e.buffer e.cursor
               cursor := e.cursor + utf8Len ch
               preferred_column := none })

/-- Embeds `EditorState::insert_newline`. -/
def insert_newline (e : EditorState) : Bool × EditorState :=
  (true,
    after_edit
      { e with buffer := takeBytes e.buffer e.cursor ++ '\n' :: dropBytes e.buffer e.cursor
               cursor := e.cursor + 1
               preferred_column := some 0 })

/-- Embeds `EditorState::backspace`. -/
def backspace (e : EditorState) : Bool × EditorState :=
  if e.cursor = 0 then (false, e)
  else
    let prev := prev_grapheme_boundary e.buffer e.cursor
    (true,
      after_edit
        { e with buffer := takeBytes e.buffer prev ++ dropBytes e.buffer e.cursor
                 cursor := prev
                 preferred_column := none })

/-- Embeds `EditorState::delete`. -/
def delete (e : EditorState) : Bool × EditorState :=
  if byteLen e.buffer ≤ e.cursor then (false, e)
  else
    let next := next_grapheme_boundary e.buffer e.cursor
    if next = e.cursor then (false, e)
    else
      (true,
        after_edit
          { e with buffer := takeBytes e.buffer e.cursor ++ dropBytes e.buffer next
                   preferred_column := none })

/-- Embeds `EditorState::move_left`. -/
def move_left (e : EditorState) : Bool × EditorState :=
  if e.cursor = 0 then (false, e)
  else
    (true, { e with cursor := prev_grapheme_boundary e.buffer e.cursor
                    preferred_column := none })

/-- Embeds `EditorState::move_right`. -/
def move_right (e : EditorState) : Bool × EditorState :=
  if byteLen e.buffer ≤ e.cursor then (false, e)
  else
    let next := next_grapheme_boundary e.buffer e.cursor
    if next = e.cursor then (false, e)
    else (true, { e with cursor := next, preferred_column := none })

/-- Embeds `EditorState::move_home`. -/
def move_home (e : EditorState) : Bool × EditorState :=
  let ls := line_start e.buffer e.cursor
  if e.cursor = ls then (false, e)
  else (true, { e with cursor := ls, preferred_column := some 0 })

/-- Embeds `EditorState::move_end`. -/
def move_end (e : EditorState) : Bool × EditorState :=
  let le := line_end e.buffer e.cursor
  if e.cursor = le then (false, e)
  else
    (true, { e with cursor := le
                    preferred_column := some (column_at e.buffer (line_start e.buffer le) le) })

/-- Embeds `EditorState::move_up`. -/
def move_up (e : EditorState) : Bool × EditorState :=
  let ls := line_start e.buffer e.cursor
  let col := e.preferred_column.getD (column_at e.buffer ls e.cursor)
  if ls = 0 then
    if e.cursor = 0 then (false, e)
    else (true, { e with cursor := 0, preferred_column := some col })
  else
    let prevLineEnd := ls - 1
    let prevLineStart := line_start e.buffer prevLineEnd
    let target := position_for_column e.buffer prevLineStart col
    if e.cursor = target then (false, e)
    else (true, { e with cursor := target, preferred_column := some col })

/-- Embeds `EditorState::move_down`. -/
def move_down (e : EditorState) : Bool × EditorState :=
  let ls := line_start e.buffer e.cursor
  let col := e.preferred_column.getD (column_at e.buffer ls e.cursor)
  let le := line_end e.buffer e.cursor
  if le = byteLen e.buffer then
    if e.cursor = byteLen e.buffer then (false, e)
    else (true, { e with cursor := byteLen e.buffer, preferred_column := some col })
  else
    let nextLineStart := le + 1
    let target := position_for_column e.buffer nextLineStart col
    if e.cursor = target then (false, e)
    else (true, { e with cursor := target, preferred_column := some col })

/-- A grapheme slice is whitespace-only: embeds `buffer[a..b].trim().is_empty()`. -/
def wsSlice (text : List Char) (a b : Nat) : Bool :=
  (sliceBytes text a b).all rustIsWhitespace

/-- First loop of `move_word_left`: step left over whitespace clusters.
The fuel argument bounds the iteration count; each iteration strictly
decreases the index, so fuel `idx + 1` never runs out. -/
def mwlSkipWs (text : List Char) : Nat → Nat → Nat
  | 0, idx => idx
  | fuel + 1, idx =>
    if idx = 0 then idx
    else
      let prev := prev_grapheme_boundary text idx
      if wsSlice text prev idx then mwlSkipWs text fuel prev else idx

/-- Second loop of `move_word_left`: step left over word clusters. -/
def mwlSkipWord (text : List Char) : Nat → Nat → Nat
  | 0, idx => idx
  | fuel + 1, idx =>
    if idx = 0 then idx
    else
      let prev := prev_grapheme_boundary text idx
      if wsSlice text prev idx then idx else mwlSkipWord text fuel prev

/-- Embeds `EditorState::move_word_left`. -/
def move_word_left (e : EditorState) : Bool × EditorState :=
  if e.cursor = 0 then (false, e)
  else
    let i1 := mwlSkipWs e.buffer (e.cursor + 1) e.cursor
    let i2 := mwlSkipWord e.buffer (i1 + 1) i1
    (true, { e with cursor := i2, preferred_column := none })

/-- Whitespace-skipping loop of `move_word_right` (first and third loop).
Each iteration strictly increases the index toward the buffer length,
so fuel `byteLen text + 1` never runs out. -/
def mwrSkipWs (text : List Char) : Nat → Nat → Nat
  | 0, idx => idx
  | fuel + 1, idx =>
    if byteLen text ≤ idx then idx
    else
      let next := next_grapheme_boundary text idx
      if wsSlice text idx next then mwrSkipWs text fuel next else idx

/-- Word-skipping loop of `move_word_right` (second loop). -/
def mwrSkipWord (text : List Char) : Nat → Nat → Nat
  | 0, idx => idx
  | fuel + 1, idx =>
    if byteLen text ≤ idx then idx
    else
      let next := next_grapheme_boundary text idx
      if wsSlice text idx next then idx else mwrSkipWord text fuel next

/-- Embeds `EditorState::move_word_right`. -/
def move_word_right (e : EditorState) : Bool × EditorState :=
  if byteLen e.buffer ≤ e.cursor then (false, e)
  else
    let len := byteLen e.buffer
    let i1 := mwrSkipWs e.buffer (len + 1) e.cursor
    let i2 := mwrSkipWord e.buffer (len + 1) i1
    let i3 := mwrSkipWs e.buffer (len + 1) i2
    if i3 = e.cursor then (false, e)
    else (true, { e with cursor := min i3 len, preferred_column := none })

/-- Embeds `EditorState::undo`. -/
def undo (e : EditorState) : Bool × EditorState :=
  if e.history_index = 0 then (false, e)
  else
    (true, restore_history_snapshot { e with history_index := e.history_index - 1 })

/-- Embeds `EditorState::redo`. -/
def redo (e : EditorState) : Bool × EditorState :=
  if e.history.length ≤ e.history_index + 1 then (false, e)
  else
    (true, restore_history_snapshot { e with history_index := e.history_index + 1 })

end EditorState

/-- The editor operations reachable states are built from. -/
inductive EditOp where
  | insertChar (c : Char)
  | insertNewline
  | backspace
  | delete
  | moveLeft
  | moveRight
  | moveHome
  | moveEnd
  | moveUp
  | moveDown
  | moveWordLeft
  | moveWordRight
  | undo
  | redo
  | markClean
deriving Repr, DecidableEq

/-- Apply one editor operation, discarding the mutation flag. -/
def applyOp (e : EditorState) : EditOp → EditorState
  | .insertChar c => (e.insert_char c).2
  | .insertNewline => e.insert_newline.2
  | .backspace => e.backspace.2
  | .delete => e.delete.2
  | .moveLeft => e.move_left.2
  | .moveRight => e.move_right.2
  | .moveHome => e.move_home.2
  | .moveEnd => e.move_end.2
  | .moveUp => e.move_up.2
  | .moveDown => e.move_down.2
  | .moveWordLeft => e.move_word_left.2
  | .moveWordRight => e.move_word_right.2
  | .undo => e.undo.2
  | .redo => e.redo.2
  | .markClean => e.mark_clean

/-- Apply a sequence of editor operations from left to right. -/
def applyOps (ops : List EditOp) (e : EditorState) : EditorState :=
  ops.foldl applyOp e

/-!
Autosave runtime embedding (src/journaling/autosave.rs).

Wall-clock instants (`OffsetDateTime`) are epoch seconds as `Int`;
monotonic instants (`Instant`) are `Nat` ticks. Operations that read the
clocks in the source take the current instants as explicit arguments.
The journal directory is a list of file entries; an entry models a file
named `base ++ ".json"` (final snapshot) or `base ++ ".json.tmp"` (temp
file), with `content = none` for an unparseable file. Files with other
extensions are skipped by every scan in the source, so they are omitted.
-/

/-- Embeds `AutoSaveFailure` from src/journaling/autosave.rs. -/
structure AutoSaveFailure where
  message : String
  occurred_at : Int
deriving Repr, DecidableEq

/-- The persisted `SnapshotRecord` (note id, epoch seconds, body). -/
structure SnapshotRecord where
  note_id : Int
  saved_at : Int
  body : String
deriving Repr, DecidableEq

/-- Embeds `RecoverySnapshot` returned by the recovery scan. -/
structure RecoverySnapshot where
  note_id : Int
  saved_at : Int
  body : String
deriving Repr, DecidableEq

/-- One file of the journal directory. -/
structure JEntry where
  base : String
  isTmp : Bool
  content : Option SnapshotRecord
deriving Repr, DecidableEq

/-- Embeds `Session` from src/journaling/autosave.rs. The `snapshot_path` field is
always `journal_dir/note-<id>.json` (set once in `Session::new` and
never reassigned), so the model derives it from `note_id` via
`snapshotBase` instead of storing it. -/
structure Session where
  note_id : Int
  buffer : String
  dirty : Bool
  dirty_since : Option Nat
  dirty_since_wall : Option Int
  last_saved_at : Option Int
  last_error : Option AutoSaveFailure
deriving Repr, DecidableEq

/-- Embeds `AutoSaveRuntime` from src/journaling/autosave.rs, with the journal
directory contents inlined as a field. -/
structure AutoSaveRuntime where
  enabled : Bool
  crash_recovery : Bool
  retention : Option Nat
  debounce : Nat
  session : Option Session
  prune_interval : Nat
  last_prune : Nat
  journal : List JEntry
deriving Repr, DecidableEq

/-- Embeds `AutoSaveStatus`. -/
inductive AutoSaveStatus where
  | disabled
  | inactive
  | idle (note_id : Int) (last_saved_at : Option Int)
  | pending (note_id : Int) (since : Int)
  | error (note_id : Int) (message : String) (occurred_at : Int)
deriving Repr, DecidableEq

/-- Embeds `AutoSaveEvent`. -/
inductive AutoSaveEvent where
  | saved (note_id : Int) (timestamp : Int)
  | error (note_id : Int) (message : String)
deriving Repr, DecidableEq

/-- Embeds `FlushKind`. -/
inductive FlushKind where
  | debounced
  | immediate
deriving Repr, DecidableEq

/-- The durable store collaborator: `update_note_body` either succeeds or
fails with a message. -/
def Store : Type := Int → String → Except String Unit

/-- File-name stem of the snapshot for a note: `note-<id>` (the file itself
is `note-<id>.json`, from `AutoSaveRuntime::snapshot_path`). -/
def snapshotBase (note_id : Int) : String :=
  "note-" ++ toString note_id

/-- Embeds `Session::mark_dirty_now`. -/
def Session.mark_dirty_now (s : Session) (monoNow : Nat) (wallNow : Int) : Session :=
  { s with dirty := true
           dirty_since := some monoNow
           dirty_since_wall := some wallNow
           last_error := none }

/-- Embeds `AutoSaveRuntime::status`. `wallNow` feeds the `unwrap_or_else(now_utc)`
default of the pending branch. -/
def status (rt : AutoSaveRuntime) (wallNow : Int) : AutoSaveStatus :=
  if rt.enabled = false ∧ rt.crash_recovery = false then .disabled
  else
    match rt.session with
    | none => .inactive
    | some s =>
      match s.last_error with
      | some f => .error s.note_id f.message f.occurred_at
      | none =>
        if s.dirty then .pending s.note_id (s.dirty_since_wall.getD wallNow)
        else .idle s.note_id s.last_saved_at

/-- Effect of `remove_snapshot_path` on the directory: remove the final
snapshot file with the given stem (idempotent; a missing file is fine). -/
def removeFinal (j : List JEntry) (base : String) : List JEntry :=
  j.filter fun e => !(e.base == base && e.isTmp == false)

/-- Effect of `write_snapshot`: write the serialized record to
`base.json.tmp`, then atomically rename it onto `base.json`. The net effect
replaces any file with this stem (temp or final) by the new final snapshot. -/
def writeSnapshot (j : List JEntry) (note_id : Int) (wallNow : Int) (body : String) :
    List JEntry :=
  { base := snapshotBase note_id, isTmp := false
    content := some { note_id := note_id, saved_at := wallNow, body := body } } ::
    j.filter fun e => !(e.base == snapshotBase note_id)

/-- Embeds `AutoSaveRuntime::update_buffer`. -/
def update_buffer (rt : AutoSaveRuntime) (note_id : Int) (contents : String)
    (monoNow : Nat) (wallNow : Int) : AutoSaveRuntime :=
  match rt.session with
  | none => rt
  | some s =>
    if s.note_id ≠ note_id then rt
    else if s.buffer = contents then rt
    else
      let s' := Session.mark_dirty_now { s with buffer := contents } monoNow wallNow
      { rt with session := some s'
                journal := if rt.crash_recovery then
                    writeSnapshot rt.journal note_id wallNow contents
                  else rt.journal }

/-- Embeds `AutoSaveRuntime::flush_internal`. -/
def flush_internal (rt : AutoSaveRuntime) (store : Store) (mode : FlushKind)
    (monoNow : Nat) (wallNow : Int) : Option AutoSaveEvent × AutoSaveRuntime :=
  match rt.session with
  | none => (none, rt)
  | some s =>
    if s.dirty = false then (none, rt)
    else
      let ready := (s.dirty_since.map fun since => decide (rt.debounce ≤ monoNow - since)).getD false
      if mode = FlushKind.debounced ∧ ready = false then (none, rt)
      else
        match store s.note_id s.buffer with
        | .ok _ =>
          let s' := { s with dirty := false
                             dirty_since := none
                             dirty_since_wall := none
                             last_saved_at := some wallNow
                             last_error := none }
          let j := if rt.crash_recovery then removeFinal rt.journal (snapshotBase s.note_id)
                   else rt.journal
          (some (.saved s.note_id wallNow), { rt with session := some s', journal := j })
        | .error msg =>
          let s' := { s with last_error := some { message := msg, occurred_at := wallNow } }
          let j := if rt.crash_recovery then writeSnapshot rt.journal s.note_id wallNow s.buffer
                   else rt.journal
          (some (.error s.note_id msg), { rt with session := some s', journal := j })

/-- Embeds `AutoSaveRuntime::prune_journal` (pure effect on the directory): every
temp file is removed; when a retention cutoff is configured, snapshots older
than `wallNow - retention` and unparseable snapshots are removed too. -/
def pruneJournal (rt : AutoSaveRuntime) (wallNow : Int) : List JEntry :=
  if rt.crash_recovery = false then rt.journal
  else
    rt.journal.filter fun e =>
      if e.isTmp then false
      else
        match rt.retention with
        | none => true
        | some ret =>
          match e.content with
          | none => false
          | some r => decide (wallNow - (ret : Int) ≤ r.saved_at)

/-- Embeds `AutoSaveRuntime::maybe_prune_journal`. -/
def maybe_prune_journal (rt : AutoSaveRuntime) (monoNow : Nat) (wallNow : Int) :
    AutoSaveRuntime :=
  if rt.crash_recovery = false then rt
  else if monoNow - rt.last_prune < rt.prune_interval then rt
  else { rt with journal := pruneJournal rt wallNow, last_prune := monoNow }

/-- Embeds `AutoSaveRuntime::poll`: prune on the fixed interval, then, only when
autosave is enabled, attempt a debounced flush. -/
def poll (rt : AutoSaveRuntime) (store : Store) (monoNow : Nat) (wallNow : Int) :
    Option AutoSaveEvent × AutoSaveRuntime :=
  let rt1 := maybe_prune_journal rt monoNow wallNow
  if rt1.enabled = false then (none, rt1)
  else flush_internal rt1 store .debounced monoNow wallNow

/-- Embeds `AutoSaveRuntime::flush_now`. -/
def flush_now (rt : AutoSaveRuntime) (store : Store) (monoNow : Nat) (wallNow : Int) :
    Option AutoSaveEvent × AutoSaveRuntime :=
  flush_internal rt store .immediate monoNow wallNow

/-- The `sort_by` comparator of `list_recovery`, as the corresponding
total order: `a` sorts no later than `b` when `a` is newer, or equally
new with a note id no larger. -/
def snapLE (a b : RecoverySnapshot) : Prop :=
  b.saved_at < a.saved_at ∨ (a.saved_at = b.saved_at ∧ a.note_id ≤ b.note_id)

instance : DecidableRel snapLE := fun a b => by
  unfold snapLE; infer_instance

instance : IsTotal RecoverySnapshot snapLE where
  total a b := by
    unfold snapLE
    rcases lt_trichotomy a.saved_at b.saved_at with h | h | h
    · exact Or.inr (Or.inl h)
    · rcases le_total a.note_id b.note_id with hn | hn
      · exact Or.inl (Or.inr ⟨h, hn⟩)
      · exact Or.inr (Or.inr ⟨h.symm, hn⟩)
    · exact Or.inl (Or.inl h)

instance : IsTrans RecoverySnapshot snapLE where
  trans a b c hab hbc := by
    unfold snapLE at *
    rcases hab with h1 | ⟨h1, h1n⟩ <;> rcases hbc with h2 | ⟨h2, h2n⟩
    · exact Or.inl (h2.trans h1)
    · exact Or.inl (h2 ▸ h1)
    · exact Or.inl (h1.symm ▸ h2)
    · exact Or.inr ⟨h1.trans h2, h1n.trans h2n⟩

/-- View a parsed record as a recovery snapshot (`read_snapshot_path`). -/
def toSnapshot (r : SnapshotRecord) : RecoverySnapshot :=
  { note_id := r.note_id, saved_at := r.saved_at, body := r.body }

/-- Embeds `AutoSaveRuntime::list_recovery`. The scan first runs `prune_journal`
(which removes every `*.tmp` file, so the temp-finalisation branch of the
loop has no input left to act on), then reads each remaining `.json` entry
in directory order — deleting unparseable ones — and finally sorts with the
stable `sort_by` comparator. Note the scan does not consult `rt.session`. -/
def list_recovery (rt : AutoSaveRuntime) (monoNow : Nat) (wallNow : Int) :
    List RecoverySnapshot × AutoSaveRuntime :=
  if rt.crash_recovery = false then ([], rt)
  else
    let pruned := pruneJournal rt wallNow
    let snaps := pruned.filterMap fun e => e.content.map toSnapshot
    let kept := pruned.filter fun e => e.content.isSome
    (List.insertionSort snapLE snaps,
      { rt with journal := kept, last_prune := monoNow })

/-- Look up the final snapshot file for a stem and parse it. -/
def findFinal (j : List JEntry) (base : String) : Option SnapshotRecord :=
  (j.find? fun e => e.base == base && e.isTmp == false).bind (·.content)

/-- The structural invariant of the editing buffer history that every
reachable `EditorState` maintains: the index is in range, the depth is
bounded by 200, and the entry at the index mirrors the live buffer. -/
def EditorState.Inv (e : EditorState) : Prop :=
  e.history_index < e.history.length ∧
  e.history.length ≤ 200 ∧
  e.history.get? e.history_index = some e.buffer

/-- A store that accepts every write. -/
def storeAccept : Store := fun _ _ => Except.ok ()

/-- A store that rejects every write with a fixed message. -/
def storeReject : Store := fun _ _ => Except.error "db down"

/-- Combining acute accent U+0301, a two-byte `Extend` scalar value. -/
def combiningAcute : Char := Char.ofNat 0x301

/-- Dirty session used to exercise a failing flush. -/
def sesC1w : Session :=
  { note_id := 4, buffer := "draft", dirty := true, dirty_since := some 2
    dirty_since_wall := some 40, last_saved_at := none, last_error := none }

/-- Runtime with crash recovery and an active dirty session. -/
def rtC1w : AutoSaveRuntime :=
  { enabled := true, crash_recovery := true, retention := none, debounce := 3
    session := some sesC1w, prune_interval := 300, last_prune := 0, journal := [] }

/-- Clean session for the successful-flush scenario. -/
def sesC2w : Session :=
  { note_id := 6, buffer := "original", dirty := false, dirty_since := none
    dirty_since_wall := none, last_saved_at := none, last_error := none }

/-- Runtime with autosave on, debounce 0 and crash recovery on. -/
def rtC2w : AutoSaveRuntime :=
  { enabled := true, crash_recovery := true, retention := none, debounce := 0
    session := some sesC2w, prune_interval := 300, last_prune := 0, journal := [] }

/-- Runtime with autosave disabled but crash recovery on, holding one stale
snapshot and an overdue prune clock. -/
def rtC7 : AutoSaveRuntime :=
  { enabled := false, crash_recovery := true, retention := some 10, debounce := 0
    session := none, prune_interval := 300, last_prune := 0
    journal := [{ base := "note-1", isTmp := false
                  content := some { note_id := 1, saved_at := 0, body := "stale" } }] }

/-- Active session owning note 1. -/
def sesC8 : Session :=
  { note_id := 1, buffer := "live", dirty := true, dirty_since := some 0
    dirty_since_wall := some 50, last_saved_at := none, last_error := none }

/-- Runtime whose journal holds a snapshot for the note of the active session. -/
def rtC8 : AutoSaveRuntime :=
  { enabled := true, crash_recovery := true, retention := none, debounce := 0
    session := some sesC8, prune_interval := 300, last_prune := 0
    journal := [{ base := "note-1", isTmp := false
                  content := some { note_id := 1, saved_at := 10, body := "x" } }] }

/-- Session carrying a recorded flush failure. -/
def sesC10 : Session :=
  { note_id := 1, buffer := "b", dirty := true, dirty_since := none
    dirty_since_wall := none, last_saved_at := none
    last_error := some { message := "boom", occurred_at := 5 } }

/-- Runtime with autosave and crash recovery both off but a session with a
recorded failure (reachable through `flush_now`, which ignores `enabled`). -/
def rtC10 : AutoSaveRuntime :=
  { enabled := false, crash_recovery := false, retention := none, debounce := 0
    session := some sesC10, prune_interval := 300, last_prune := 0, journal := [] }

/-- Session with a recorded failure inside an enabled runtime. -/
def sesC10w : Session :=
  { note_id := 2, buffer := "body", dirty := true, dirty_since := some 1
    dirty_since_wall := some 7, last_saved_at := none
    last_error := some { message := "x", occurred_at := 3 } }

/-- Enabled runtime holding `sesC10w`. -/
def rtC10w : AutoSaveRuntime :=
  { enabled := true, crash_recovery := true, retention := none, debounce := 0
    session := some sesC10w, prune_interval := 300, last_prune := 0, journal := [] }

theorem restore_frame (e : EditorState) :
    e.restore_history_snapshot.history = e.history ∧
    e.restore_history_snapshot.history_index = e.history_index := by
  unfold EditorState.restore_history_snapshot
  split <;> exact ⟨rfl, rfl⟩

theorem restore_buffer (e : EditorState) (snap : List Char)
    (h : e.history.get? e.history_index = some snap) :
    e.restore_history_snapshot.buffer = snap := by
  unfold EditorState.restore_history_snapshot
  split
  next s hs =>
    rw [h] at hs
    exact (Option.some.inj hs).symm
  next hs =>
    rw [h] at hs
    exact Option.noConfusion hs

theorem inv_new (n : Int) (b : List Char) : (EditorState.new n b).Inv :=
  ⟨Nat.one_pos, by norm_num [EditorState.new], rfl⟩

theorem inv_record (e : EditorState) (h1 : e.history_index < e.history.length)
    (h2 : e.history.length ≤ 200) : e.record_history.Inv := by
  unfold EditorState.record_history
  split
  next hcur => exact ⟨h1, h2, hcur⟩
  next hcur =>
    have htl : (e.history.take (e.history_index + 1)).length = e.history_index + 1 := by
      rw [List.length_take]; omega
    have hplen : (EditorState.pushedHistory e).length = e.history_index + 2 := by
      unfold EditorState.pushedHistory
      rw [List.length_append, htl]
      rfl
    have hlast : (EditorState.pushedHistory e).get? (e.history_index + 1) = some e.buffer := by
      unfold EditorState.pushedHistory
      have hc := List.get?_concat_length (e.history.take (e.history_index + 1)) e.buffer
      rwa [htl] at hc
    split
    next hbig =>
      refine ⟨?_, ?_, ?_⟩
      · show ((EditorState.pushedHistory e).drop ((EditorState.pushedHistory e).length - 200)).length - 1 <
          ((EditorState.pushedHistory e).drop ((EditorState.pushedHistory e).length - 200)).length
        rw [List.length_drop]; omega
      · show ((EditorState.pushedHistory e).drop ((EditorState.pushedHistory e).length - 200)).length ≤ 200
        rw [List.length_drop]; omega
      · show ((EditorState.pushedHistory e).drop ((EditorState.pushedHistory e).length - 200)).get?
          (((EditorState.pushedHistory e).drop ((EditorState.pushedHistory e).length - 200)).length - 1) =
          some e.buffer
        rw [List.length_drop, List.get?_drop]
        have harith : (EditorState.pushedHistory e).length - 200 +
            ((EditorState.pushedHistory e).length -
              ((EditorState.pushedHistory e).length - 200) - 1) =
            e.history_index + 1 := by omega
        rw [harith]
        exact hlast
    next hsmall =>
      refine ⟨?_, ?_, ?_⟩
      · show (EditorState.pushedHistory e).length - 1 < (EditorState.pushedHistory e).length
        omega
      · exact Nat.le_of_not_lt hsmall
      · show (EditorState.pushedHistory e).get? ((EditorState.pushedHistory e).length - 1) =
          some e.buffer
        rw [hplen]
        simpa using hlast

theorem inv_restore (e : EditorState) (h1 : e.history_index < e.history.length)
    (h2 : e.history.length ≤ 200) : e.restore_history_snapshot.Inv := by
  unfold EditorState.restore_history_snapshot
  split
  next snap hs => exact ⟨h1, h2, hs⟩
  next hs => exact absurd h1 (Nat.not_lt.mpr (List.get?_eq_none.mp hs))

theorem inv_applyOp (e : EditorState) (op : EditOp) (h : e.Inv) : (applyOp e op).Inv := by
  obtain ⟨h1, h2, h3⟩ := h
  cases op with
  | insertChar c =>
    show ((e.insert_char c).2).Inv
    exact inv_record _ h1 h2
  | insertNewline =>
    show (e.insert_newline.2).Inv
    exact inv_record _ h1 h2
  | backspace =>
    show (e.backspace.2).Inv
    unfold EditorState.backspace
    split
    · exact ⟨h1, h2, h3⟩
    · exact inv_record _ h1 h2
  | delete =>
    show (e.delete.2).Inv
    unfold EditorState.delete
    split
    · exact ⟨h1, h2, h3⟩
    · dsimp only
      split
      · exact ⟨h1, h2, h3⟩
      · exact inv_record _ h1 h2
  | moveLeft =>
    show (e.move_left.2).Inv
    unfold EditorState.move_left
    split <;> exact ⟨h1, h2, h3⟩
  | moveRight =>
    show (e.move_right.2).Inv
    unfold EditorState.move_right
    split
    · exact ⟨h1, h2, h3⟩
    · dsimp only
      split <;> exact ⟨h1, h2, h3⟩
  | moveHome =>
    show (e.move_home.2).Inv
    unfold EditorState.move_home
    dsimp only
    split <;> exact ⟨h1, h2, h3⟩
  | moveEnd =>
    show (e.move_end.2).Inv
    unfold EditorState.move_end
    dsimp only
    split <;> exact ⟨h1, h2, h3⟩
  | moveUp =>
    show (e.move_up.2).Inv
    unfold EditorState.move_up
    dsimp only
    split
    · split <;> exact ⟨h1, h2, h3⟩
    · split <;> exact ⟨h1, h2, h3⟩
  | moveDown =>
    show (e.move_down.2).Inv
    unfold EditorState.move_down
    dsimp only
    split
    · split <;> exact ⟨h1, h2, h3⟩
    · split <;> exact ⟨h1, h2, h3⟩
  | moveWordLeft =>
    show (e.move_word_left.2).Inv
    unfold EditorState.move_word_left
    dsimp only
    split <;> exact ⟨h1, h2, h3⟩
  | moveWordRight =>
    show (e.move_word_right.2).Inv
    unfold EditorState.move_word_right
    dsimp only
    split
    · exact ⟨h1, h2, h3⟩
    · split <;> exact ⟨h1, h2, h3⟩
  | undo =>
    show (e.undo.2).Inv
    unfold EditorState.undo
    split
    · exact ⟨h1, h2, h3⟩
    · exact inv_restore _ (lt_of_le_of_lt (Nat.sub_le _ _) h1) h2
  | redo =>
    show (e.redo.2).Inv
    unfold EditorState.redo
    split
    · exact ⟨h1, h2, h3⟩
    next hn => exact inv_restore _ (Nat.lt_of_not_le hn) h2
  | markClean =>
    show (e.mark_clean).Inv
    exact ⟨Nat.one_pos, show (1:Nat) ≤ 200 by norm_num, rfl⟩

theorem inv_applyOps (ops : List EditOp) (e : EditorState) (h : e.Inv) :
    (applyOps ops e).Inv := by
  induction ops generalizing e with
  | nil => exact h
  | cons op rest ih => exact ih _ (inv_applyOp e op h)

theorem undo_of_pos (e : EditorState) (h : e.history_index ≠ 0) :
    e.undo = (true, EditorState.restore_history_snapshot
      { e with history_index := e.history_index - 1 }) := by
  unfold EditorState.undo
  rw [if_neg h]

theorem redo_of_lt (e : EditorState) (h : e.history_index + 1 < e.history.length) :
    e.redo = (true, EditorState.restore_history_snapshot
      { e with history_index := e.history_index + 1 }) := by
  unfold EditorState.redo
  rw [if_neg (by omega)]

theorem redo_of_ge (e : EditorState) (h : e.history.length ≤ e.history_index + 1) :
    e.redo = (false, e) := by
  unfold EditorState.redo
  rw [if_pos h]

/-- C4: for every editor state, `mark_clean` followed by `undo` is a no-op —
`undo` returns `false` and leaves buffer, cursor and dirty flag (indeed the
whole state) exactly as `mark_clean` left them, because `mark_clean`
collapses history to a single entry at index 0. -/
theorem mark_clean_then_undo_is_noop (e : EditorState) :
    e.mark_clean.undo = (false, e.mark_clean) := by
  unfold EditorState.undo
  rw [if_pos (show e.mark_clean.history_index = 0 from rfl)]

/-- C3 (the claim fails on the code): starting from a buffer holding a lone
combining acute accent, `move_left` then `insert_char a` leaves the cursor
at byte offset 1, strictly inside the single grapheme cluster "a"+U+0301
whose only boundaries are 0 and 3. The bounds half of the claim holds at
this state (1 ≤ 3), but the cursor is not on a cluster boundary, so the
code violates the invariant the spec states. -/
theorem insert_before_combining_mark_breaks_boundary_invariant :
    (applyOps [.moveLeft, .insertChar 'a'] (EditorState.new 1 [combiningAcute])).cursor = 1 ∧
    (applyOps [.moveLeft, .insertChar 'a'] (EditorState.new 1 [combiningAcute])).buffer =
      ['a', combiningAcute] ∧
    graphemeBoundaries ['a', combiningAcute] = [0, 3] ∧
    isGraphemeBoundary ['a', combiningAcute] 1 = false ∧
    (applyOps [.moveLeft, .insertChar 'a'] (EditorState.new 1 [combiningAcute])).cursor ≤
      byteLen ['a', combiningAcute] := by
  decide

/-- C9 (the claim as frozen is false on the code): with buffer
"alpha  beta" and the cursor at the end, the FIRST `move_word_left` lands
at offset 7 (the start of "beta"), not at offset 0 as the claim states. -/
theorem first_move_word_left_lands_at_seven_not_zero :
    ((EditorState.new 1 ("alpha  beta".toList)).move_word_left.2.cursor = 7) ∧
    ((EditorState.new 1 ("alpha  beta".toList)).move_word_left.2.cursor ≠ 0) := by
  decide

theorem undo_redo_core (e : EditorState) (hinv : e.Inv) (e₁ : EditorState)
    (hu : e.undo = (true, e₁)) :
    e₁.redo.1 = true ∧ e₁.redo.2.buffer = e.buffer := by
  obtain ⟨h1, h2, h3⟩ := hinv
  by_cases hz : e.history_index = 0
  · exfalso
    have : e.undo = (false, e) := by unfold EditorState.undo; rw [if_pos hz]
    rw [this] at hu
    exact Bool.noConfusion (congrArg Prod.fst hu)
  · have he₁ : e₁ = EditorState.restore_history_snapshot
        { e with history_index := e.history_index - 1 } := by
      have h := (undo_of_pos e hz).symm.trans hu
      exact (congrArg Prod.snd h).symm
    have hh : e₁.history = e.history := by
      rw [he₁]; exact (restore_frame _).1
    have hi : e₁.history_index = e.history_index - 1 := by
      rw [he₁]; exact (restore_frame _).2
    have hlt : e₁.history_index + 1 < e₁.history.length := by
      rw [hh, hi]; omega
    rw [redo_of_lt e₁ hlt]
    refine ⟨rfl, ?_⟩
    apply restore_buffer
    show e₁.history.get? (e₁.history_index + 1) = some e.buffer
    rw [hh, hi]
    have : e.history_index - 1 + 1 = e.history_index := by omega
    rw [this]
    exact h3

/-- C5: for every reachable editor state on which `undo` succeeds, an
immediately following `redo` succeeds and restores exactly the buffer
content the undo replaced; and on any state whose history index is at the
newest entry, `redo` is a no-op returning `false`. -/
theorem redo_after_undo_restores_buffer :
    (∀ (n : Int) (b : List Char) (ops : List EditOp) (e₁ : EditorState),
      (applyOps ops (EditorState.new n b)).undo = (true, e₁) →
      e₁.redo.1 = true ∧ e₁.redo.2.buffer = (applyOps ops (EditorState.new n b)).buffer) ∧
    (∀ e : EditorState, e.history.length ≤ e.history_index + 1 → e.redo = (false, e)) :=
  ⟨fun n b ops e₁ hu =>
      undo_redo_core (applyOps ops (EditorState.new n b))
        (inv_applyOps ops _ (inv_new n b)) e₁ hu,
   fun e h => redo_of_ge e h⟩

/-- Witness for C5 at a concrete input: editing "hello" with an inserted
bang, undoing, then redoing recovers "hello!"; redo on a fresh state (whose
index is at the newest entry) is a no-op. -/
theorem redo_after_undo_restores_buffer_witness :
    ((applyOps [.insertChar '!'] (EditorState.new 1 ("hello".toList))).undo.2.redo.1 = true ∧
     (applyOps [.insertChar '!']
        (EditorState.new 1 ("hello".toList))).undo.2.redo.2.buffer = "hello!".toList) ∧
    (EditorState.new 1 ("ab".toList)).redo = (false, EditorState.new 1 ("ab".toList)) := by
  have h1 := redo_after_undo_restores_buffer.1 1 ("hello".toList) [.insertChar '!']
    ((applyOps [.insertChar '!'] (EditorState.new 1 ("hello".toList))).undo.2) (by decide)
  have h2 := redo_after_undo_restores_buffer.2 (EditorState.new 1 ("ab".toList)) (by decide)
  exact ⟨⟨h1.1, h1.2.trans (by decide)⟩, h2⟩

theorem record_history_evicts (e : EditorState)
    (hne : e.history.get? e.history_index ≠ some e.buffer) :
    e.record_history.history =
      (EditorState.pushedHistory e).drop ((EditorState.pushedHistory e).length - 200) := by
  unfold EditorState.record_history
  rw [if_neg hne]
  split
  next hbig => rfl
  next hsmall =>
    show EditorState.pushedHistory e =
      (EditorState.pushedHistory e).drop ((EditorState.pushedHistory e).length - 200)
    have hz : (EditorState.pushedHistory e).length - 200 = 0 := by omega
    rw [hz, List.drop_zero]

/-- C6: along every operation sequence from a fresh buffer the history never
holds more than 200 snapshots and the history index stays strictly below the
history length; and whenever `record_history` actually records (the entry at
the index differs from the buffer), the new history is the truncate-and-push
history with exactly its oldest overflow entries dropped from the front
(`drop` of the length beyond 200; dropping zero when the bound is not hit). -/
theorem history_bounded_and_eviction :
    (∀ (n : Int) (b : List Char) (ops : List EditOp),
      (applyOps ops (EditorState.new n b)).history.length ≤ 200 ∧
      (applyOps ops (EditorState.new n b)).history_index <
        (applyOps ops (EditorState.new n b)).history.length) ∧
    (∀ e : EditorState, e.history.get? e.history_index ≠ some e.buffer →
      e.record_history.history =
        (EditorState.pushedHistory e).drop ((EditorState.pushedHistory e).length - 200)) :=
  ⟨fun n b ops =>
      have h := inv_applyOps ops (EditorState.new n b) (inv_new n b)
      ⟨h.2.1, h.1⟩,
   fun e hne => record_history_evicts e hne⟩

/-- Witness for C6 at concrete inputs: a three-edit session keeps the bounds,
and a concrete recording state gets the truncate-and-push history. -/
theorem history_bounded_and_eviction_witness :
    ((applyOps [.insertChar 'a', .insertChar 'b', .undo]
        (EditorState.new 1 [])).history.length ≤ 200 ∧
     (applyOps [.insertChar 'a', .insertChar 'b', .undo]
        (EditorState.new 1 [])).history_index <
       (applyOps [.insertChar 'a', .insertChar 'b', .undo]
          (EditorState.new 1 [])).history.length) ∧
    (EditorState.mk 1 ['b'] 1 true none [['a']] 0).record_history.history = [['a'], ['b']] := by
  have h1 := history_bounded_and_eviction.1 1 [] [.insertChar 'a', .insertChar 'b', .undo]
  have h2 := history_bounded_and_eviction.2 (EditorState.mk 1 ['b'] 1 true none [['a']] 0)
    (by decide)
  exact ⟨h1, h2.trans (by decide)⟩

/-- C9 amended: with buffer "alpha  beta" and the cursor at the end (offset
11), the first `move_word_left` lands at offset 7 (start of "beta") and the
second at offset 0; from offset 0, `move_word_right` lands at offset 7. -/
theorem word_navigation_example :
    (EditorState.new 1 ("alpha  beta".toList)).cursor = 11 ∧
    (EditorState.new 1 ("alpha  beta".toList)).move_word_left.2.cursor = 7 ∧
    (EditorState.new 1 ("alpha  beta".toList)).move_word_left.2.move_word_left.2.cursor = 0 ∧
    (EditorState.new 1
        ("alpha  beta".toList)).move_word_left.2.move_word_left.2.move_word_right.2.cursor = 7 := by
  decide

theorem maybe_prune_fields (rt : AutoSaveRuntime) (mono : Nat) (wall : Int) :
    (maybe_prune_journal rt mono wall).enabled = rt.enabled ∧
    (maybe_prune_journal rt mono wall).crash_recovery = rt.crash_recovery ∧
    (maybe_prune_journal rt mono wall).debounce = rt.debounce ∧
    (maybe_prune_journal rt mono wall).session = rt.session := by
  unfold maybe_prune_journal
  split
  · exact ⟨rfl, rfl, rfl, rfl⟩
  · split
    · exact ⟨rfl, rfl, rfl, rfl⟩
    · exact ⟨rfl, rfl, rfl, rfl⟩

theorem poll_of_enabled (rt : AutoSaveRuntime) (store : Store) (mono : Nat) (wall : Int)
    (he : rt.enabled = true) :
    poll rt store mono wall =
      flush_internal (maybe_prune_journal rt mono wall) store .debounced mono wall := by
  have hne : ¬((maybe_prune_journal rt mono wall).enabled = false) := by
    rw [(maybe_prune_fields rt mono wall).1, he]
    simp
  unfold poll
  dsimp only
  rw [if_neg hne]

theorem poll_of_disabled (rt : AutoSaveRuntime) (store : Store) (mono : Nat) (wall : Int)
    (he : rt.enabled = false) :
    poll rt store mono wall = (none, maybe_prune_journal rt mono wall) := by
  unfold poll
  dsimp only
  rw [if_pos (by rw [(maybe_prune_fields rt mono wall).1]; exact he)]

theorem flush_internal_error (rt : AutoSaveRuntime) (s : Session) (store : Store)
    (msg : String) (mode : FlushKind) (mono : Nat) (wall : Int)
    (hs : rt.session = some s) (hd : s.dirty = true)
    (hready : mode = FlushKind.debounced →
      (s.dirty_since.map fun since => decide (rt.debounce ≤ mono - since)).getD false = true)
    (hstore : store s.note_id s.buffer = Except.error msg) :
    flush_internal rt store mode mono wall =
      (some (.error s.note_id msg),
       { rt with
           session := some { s with last_error := some { message := msg, occurred_at := wall } }
           journal := if rt.crash_recovery then writeSnapshot rt.journal s.note_id wall s.buffer
                      else rt.journal }) := by
  unfold flush_internal
  rw [hs]
  dsimp only
  rw [if_neg (by simp [hd])]
  rw [if_neg (fun hc => by
    have hr := hc.2
    rw [hready hc.1] at hr
    exact Bool.noConfusion hr)]
  rw [hstore]

theorem flush_internal_ok (rt : AutoSaveRuntime) (s : Session) (store : Store)
    (mode : FlushKind) (mono : Nat) (wall : Int)
    (hs : rt.session = some s) (hd : s.dirty = true)
    (hready : mode = FlushKind.debounced →
      (s.dirty_since.map fun since => decide (rt.debounce ≤ mono - since)).getD false = true)
    (hstore : store s.note_id s.buffer = Except.ok ()) :
    flush_internal rt store mode mono wall =
      (some (.saved s.note_id wall),
       { rt with
           session := some { s with dirty := false, dirty_since := none, dirty_since_wall := none
                                    last_saved_at := some wall, last_error := none }
           journal := if rt.crash_recovery then removeFinal rt.journal (snapshotBase s.note_id)
                      else rt.journal }) := by
  unfold flush_internal
  rw [hs]
  dsimp only
  rw [if_neg (by simp [hd])]
  rw [if_neg (fun hc => by
    have hr := hc.2
    rw [hready hc.1] at hr
    exact Bool.noConfusion hr)]
  rw [hstore]

theorem update_buffer_changes (rt : AutoSaveRuntime) (s : Session) (n : Int) (c : String)
    (mono : Nat) (wall : Int) (hs : rt.session = some s) (hid : s.note_id = n)
    (hne : s.buffer ≠ c) :
    update_buffer rt n c mono wall =
      { rt with
          session := some (Session.mark_dirty_now { s with buffer := c } mono wall)
          journal := if rt.crash_recovery then writeSnapshot rt.journal n wall c
                     else rt.journal } := by
  unfold update_buffer
  rw [hs]
  dsimp only
  rw [if_neg (show ¬(s.note_id ≠ n) from fun h => h hid), if_neg hne]

theorem findFinal_writeSnapshot (j : List JEntry) (id w : Int) (b : String) :
    findFinal (writeSnapshot j id w b) (snapshotBase id) =
      some { note_id := id, saved_at := w, body := b } := by
  unfold findFinal writeSnapshot
  rw [List.find?_cons_of_pos]
  · rfl
  · simp

theorem findFinal_removeFinal (j : List JEntry) (b : String) :
    findFinal (removeFinal j b) b = none := by
  unfold findFinal removeFinal
  induction j with
  | nil => rfl
  | cons e rest ih =>
    rw [List.filter_cons]
    cases hcase : (e.base == b && e.isTmp == false) with
    | true =>
      rw [if_neg (by simp [hcase])]
      exact ih
    | false =>
      rw [if_pos (by simp [hcase])]
      rw [List.find?_cons_of_neg _ (by simpa using hcase)]
      exact ih

theorem status_error (rt : AutoSaveRuntime) (s : Session) (f : AutoSaveFailure) (wall : Int)
    (hflag : rt.enabled = true ∨ rt.crash_recovery = true)
    (hs : rt.session = some s) (herr : s.last_error = some f) :
    status rt wall = .error s.note_id f.message f.occurred_at := by
  unfold status
  rw [if_neg (by rcases hflag with h | h <;> simp [h])]
  rw [hs]
  dsimp only
  rw [herr]

theorem status_pending (rt : AutoSaveRuntime) (s : Session) (wall : Int)
    (hflag : rt.enabled = true ∨ rt.crash_recovery = true)
    (hs : rt.session = some s) (herr : s.last_error = none) (hd : s.dirty = true) :
    status rt wall = .pending s.note_id (s.dirty_since_wall.getD wall) := by
  unfold status
  rw [if_neg (by rcases hflag with h | h <;> simp [h])]
  rw [hs]
  dsimp only
  rw [herr]
  dsimp only
  rw [hd]
  rw [if_pos rfl]

theorem status_pending_inv (rt : AutoSaveRuntime) (s : Session) (wall : Int)
    (hs : rt.session = some s) (n : Int) (since : Int)
    (hp : status rt wall = .pending n since) :
    s.dirty = true ∧ s.last_error = none := by
  unfold status at hp
  split at hp
  · exact absurd hp (by simp)
  · rw [hs] at hp
    dsimp only at hp
    cases herr : s.last_error with
    | some f =>
      rw [herr] at hp
      exact absurd hp (by simp)
    | none =>
      rw [herr] at hp
      dsimp only at hp
      by_cases hd : s.dirty = true
      · exact ⟨hd, rfl⟩
      · rw [if_neg hd] at hp
        exact absurd hp (by simp)

/-- C1: with crash recovery on and an active dirty session, a flush whose
store write is rejected (via `flush_now`, or via `poll` when autosave is
enabled and the debounce window has elapsed) emits an `Error` event, leaves
the session dirty, leaves the journal snapshot for the note on disk holding
the session buffer, and makes `status()` report `Error` with the message. -/
theorem autosave_store_failure_keeps_journal_and_reports_error
    (rt : AutoSaveRuntime) (s : Session) (store : Store) (msg : String)
    (mono : Nat) (wall : Int)
    (hcr : rt.crash_recovery = true) (hs : rt.session = some s) (hd : s.dirty = true)
    (hstore : store s.note_id s.buffer = Except.error msg) :
    ((flush_now rt store mono wall).1 = some (.error s.note_id msg) ∧
     (flush_now rt store mono wall).2.session.map Session.dirty = some true ∧
     findFinal (flush_now rt store mono wall).2.journal (snapshotBase s.note_id) =
       some { note_id := s.note_id, saved_at := wall, body := s.buffer } ∧
     status (flush_now rt store mono wall).2 wall = .error s.note_id msg wall) ∧
    (∀ t : Nat, rt.enabled = true → s.dirty_since = some t → rt.debounce ≤ mono - t →
      (poll rt store mono wall).1 = some (.error s.note_id msg) ∧
      (poll rt store mono wall).2.session.map Session.dirty = some true ∧
      findFinal (poll rt store mono wall).2.journal (snapshotBase s.note_id) =
        some { note_id := s.note_id, saved_at := wall, body := s.buffer } ∧
      status (poll rt store mono wall).2 wall = .error s.note_id msg wall) := by
  constructor
  · have heq := flush_internal_error rt s store msg .immediate mono wall hs hd
      (fun h => FlushKind.noConfusion h) hstore
    show (flush_internal rt store .immediate mono wall).1 = _ ∧
      (flush_internal rt store .immediate mono wall).2.session.map Session.dirty = _ ∧
      findFinal (flush_internal rt store .immediate mono wall).2.journal _ = _ ∧
      status (flush_internal rt store .immediate mono wall).2 wall = _
    rw [heq]
    refine ⟨rfl, by simp [hd], ?_, ?_⟩
    · show findFinal (if rt.crash_recovery = true then
          writeSnapshot rt.journal s.note_id wall s.buffer else rt.journal)
        (snapshotBase s.note_id) = _
      rw [hcr, if_pos rfl]
      exact findFinal_writeSnapshot rt.journal s.note_id wall s.buffer
    · exact status_error
        { rt with
            session := some { s with last_error := some { message := msg, occurred_at := wall } }
            journal := if rt.crash_recovery then writeSnapshot rt.journal s.note_id wall s.buffer
                       else rt.journal }
        { s with last_error := some { message := msg, occurred_at := wall } }
        { message := msg, occurred_at := wall } wall (Or.inr hcr) rfl rfl
  · intro t he hds hdeb
    rw [poll_of_enabled rt store mono wall he]
    set M := maybe_prune_journal rt mono wall with hM
    have hsM : M.session = some s := ((maybe_prune_fields rt mono wall).2.2.2).trans hs
    have hcrM : M.crash_recovery = true := ((maybe_prune_fields rt mono wall).2.1).trans hcr
    have hdebM : M.debounce = rt.debounce := (maybe_prune_fields rt mono wall).2.2.1
    have hready : FlushKind.debounced = FlushKind.debounced →
        (s.dirty_since.map fun since => decide (M.debounce ≤ mono - since)).getD false =
          true := by
      intro _
      rw [hds]
      show decide (M.debounce ≤ mono - t) = true
      rw [hdebM]
      exact decide_eq_true hdeb
    have heq := flush_internal_error M s store msg .debounced mono wall hsM hd hready hstore
    rw [heq]
    refine ⟨rfl, by simp [hd], ?_, ?_⟩
    · show findFinal (if M.crash_recovery = true then
          writeSnapshot M.journal s.note_id wall s.buffer else M.journal)
        (snapshotBase s.note_id) = _
      rw [hcrM, if_pos rfl]
      exact findFinal_writeSnapshot M.journal s.note_id wall s.buffer
    · exact status_error
        { M with
            session := some { s with last_error := some { message := msg, occurred_at := wall } }
            journal := if M.crash_recovery then writeSnapshot M.journal s.note_id wall s.buffer
                       else M.journal }
        { s with last_error := some { message := msg, occurred_at := wall } }
        { message := msg, occurred_at := wall } wall (Or.inr hcrM) rfl rfl

/-- Witness for C1 at a concrete input: a dirty session on note 4 whose
store rejects the write. -/
theorem autosave_store_failure_witness :
    ((flush_now rtC1w storeReject 9 99).1 = some (.error 4 "db down") ∧
     (flush_now rtC1w storeReject 9 99).2.session.map Session.dirty = some true ∧
     findFinal (flush_now rtC1w storeReject 9 99).2.journal (snapshotBase 4) =
       some { note_id := 4, saved_at := 99, body := "draft" } ∧
     status (flush_now rtC1w storeReject 9 99).2 99 = .error 4 "db down" 99) ∧
    ((poll rtC1w storeReject 9 99).1 = some (.error 4 "db down") ∧
     (poll rtC1w storeReject 9 99).2.session.map Session.dirty = some true ∧
     findFinal (poll rtC1w storeReject 9 99).2.journal (snapshotBase 4) =
       some { note_id := 4, saved_at := 99, body := "draft" } ∧
     status (poll rtC1w storeReject 9 99).2 99 = .error 4 "db down" 99) := by
  have h := autosave_store_failure_keeps_journal_and_reports_error rtC1w sesC1w storeReject
    "db down" 9 99 rfl rfl rfl rfl
  exact ⟨h.1, h.2 2 rfl rfl (by decide)⟩

/-- C2: with autosave enabled, debounce 0 and crash recovery on, updating
the buffer of the active session with changed contents and then polling
against an accepting store yields a `Saved` event, clears the dirty flag,
records the save timestamp, and leaves no journal snapshot for the note. -/
theorem autosave_update_then_poll_saves
    (rt : AutoSaveRuntime) (s : Session) (store : Store) (n : Int) (c : String)
    (m1 m2 : Nat) (w1 w2 : Int)
    (hen : rt.enabled = true) (hcr : rt.crash_recovery = true) (hdeb : rt.debounce = 0)
    (hs : rt.session = some s) (hid : s.note_id = n) (hne : c ≠ s.buffer)
    (hstore : store n c = Except.ok ()) :
    (poll (update_buffer rt n c m1 w1) store m2 w2).1 = some (.saved n w2) ∧
    (poll (update_buffer rt n c m1 w1) store m2 w2).2.session.map Session.dirty = some false ∧
    (poll (update_buffer rt n c m1 w1) store m2 w2).2.session.map Session.last_saved_at =
      some (some w2) ∧
    findFinal (poll (update_buffer rt n c m1 w1) store m2 w2).2.journal (snapshotBase n) =
      none := by
  have hupd := update_buffer_changes rt s n c m1 w1 hs hid (fun h => hne h.symm)
  have hen1 : (update_buffer rt n c m1 w1).enabled = true := by rw [hupd]; exact hen
  rw [poll_of_enabled (update_buffer rt n c m1 w1) store m2 w2 hen1]
  set M := maybe_prune_journal (update_buffer rt n c m1 w1) m2 w2 with hM
  have hsM : M.session = some (Session.mark_dirty_now { s with buffer := c } m1 w1) := by
    refine ((maybe_prune_fields _ m2 w2).2.2.2).trans ?_
    rw [hupd]
  have hcrM : M.crash_recovery = true := by
    refine ((maybe_prune_fields _ m2 w2).2.1).trans ?_
    rw [hupd]
    exact hcr
  have hdebM : M.debounce = rt.debounce := by
    refine ((maybe_prune_fields _ m2 w2).2.2.1).trans ?_
    rw [hupd]
  have hready : FlushKind.debounced = FlushKind.debounced →
      ((Session.mark_dirty_now { s with buffer := c } m1 w1).dirty_since.map
        fun since => decide (M.debounce ≤ m2 - since)).getD false = true := by
    intro _
    show decide (M.debounce ≤ m2 - m1) = true
    rw [hdebM, hdeb]
    exact decide_eq_true (Nat.zero_le _)
  have hstore' : store (Session.mark_dirty_now { s with buffer := c } m1 w1).note_id
      (Session.mark_dirty_now { s with buffer := c } m1 w1).buffer = Except.ok () := by
    show store s.note_id c = Except.ok ()
    rw [hid]
    exact hstore
  have heq := flush_internal_ok M (Session.mark_dirty_now { s with buffer := c } m1 w1)
    store .debounced m2 w2 hsM rfl hready hstore'
  rw [heq]
  refine ⟨?_, rfl, rfl, ?_⟩
  · show some (AutoSaveEvent.saved s.note_id w2) = some (AutoSaveEvent.saved n w2)
    rw [hid]
  · show findFinal (if M.crash_recovery = true then
        removeFinal M.journal (snapshotBase s.note_id) else M.journal) (snapshotBase n) = none
    rw [hcrM, if_pos rfl, hid]
    exact findFinal_removeFinal M.journal (snapshotBase n)

/-- Witness for C2 at a concrete input: note 6, new contents, accepting
store. -/
theorem autosave_update_then_poll_saves_witness :
    (poll (update_buffer rtC2w 6 "updated body" 1 50) storeAccept 2 60).1 =
      some (.saved 6 60) ∧
    (poll (update_buffer rtC2w 6 "updated body" 1 50) storeAccept 2 60).2.session.map
      Session.dirty = some false ∧
    (poll (update_buffer rtC2w 6 "updated body" 1 50) storeAccept 2 60).2.session.map
      Session.last_saved_at = some (some 60) ∧
    findFinal (poll (update_buffer rtC2w 6 "updated body" 1 50) storeAccept 2 60).2.journal
      (snapshotBase 6) = none :=
  autosave_update_then_poll_saves rtC2w sesC2w storeAccept 6 "updated body" 1 2 50 60
    rfl rfl rfl rfl rfl (by decide) rfl

/-- C7 (the claim fails on the code): `poll` runs the periodic prune before
checking the `enabled` flag, so with autosave disabled but crash recovery
on, an overdue prune interval and an expired snapshot, `poll` deletes the
snapshot — the journal directory does not stay unchanged. -/
theorem poll_disabled_can_still_prune_journal :
    (poll rtC7 storeAccept 301 1000).1 = none ∧
    (poll rtC7 storeAccept 301 1000).2.journal = [] ∧
    rtC7.journal ≠ [] ∧
    rtC7.enabled = false := by decide

/-- C7 amended: when the `enabled` flag is false, `poll` returns no event
and leaves the session untouched; the runtime is otherwise changed only by
the periodic prune, and when crash recovery is off, or the prune interval
has not elapsed, the runtime (journal included) is fully unchanged. -/
theorem poll_disabled_no_event_and_session_unchanged
    (rt : AutoSaveRuntime) (store : Store) (mono : Nat) (wall : Int)
    (he : rt.enabled = false) :
    poll rt store mono wall = (none, maybe_prune_journal rt mono wall) ∧
    (maybe_prune_journal rt mono wall).session = rt.session ∧
    (rt.crash_recovery = false → maybe_prune_journal rt mono wall = rt) ∧
    (mono - rt.last_prune < rt.prune_interval → maybe_prune_journal rt mono wall = rt) := by
  refine ⟨poll_of_disabled rt store mono wall he,
    (maybe_prune_fields rt mono wall).2.2.2, ?_, ?_⟩
  · intro hcr
    unfold maybe_prune_journal
    rw [if_pos hcr]
  · intro hlt
    unfold maybe_prune_journal
    by_cases hcr : rt.crash_recovery = false
    · rw [if_pos hcr]
    · rw [if_neg hcr, if_pos hlt]

/-- Witness for C7 (amended) at a concrete input. -/
theorem poll_disabled_no_event_witness :
    poll rtC7 storeAccept 301 1000 = (none, maybe_prune_journal rtC7 301 1000) ∧
    (maybe_prune_journal rtC7 301 1000).session = none :=
  have h := poll_disabled_no_event_and_session_unchanged rtC7 storeAccept 301 1000 rfl
  ⟨h.1, h.2.1⟩

/-- C8 (the claim fails on the code): `list_recovery` does not filter out
snapshots owned by the active session — here the scan returns the snapshot
of note 1 even though the active session owns note 1. -/
theorem list_recovery_returns_active_session_snapshot :
    (list_recovery rtC8 5 100).1 = [{ note_id := 1, saved_at := 10, body := "x" }] ∧
    rtC8.session = some sesC8 ∧
    sesC8.note_id = 1 := by decide

/-- C8 amended: `list_recovery` returns every parseable snapshot left in the
journal after the prune pass — including snapshots owned by the active
session — ordered newest-first by `saved_at`, ties broken by ascending note
id (the list is sorted under `snapLE` and is a permutation of the parseable
entries of the pruned journal). -/
theorem list_recovery_sorted_newest_first (rt : AutoSaveRuntime) (mono : Nat) (wall : Int) :
    List.Pairwise snapLE (list_recovery rt mono wall).1 ∧
    (rt.crash_recovery = true →
      List.Perm (list_recovery rt mono wall).1
        ((pruneJournal rt wall).filterMap fun e => e.content.map toSnapshot)) := by
  unfold list_recovery
  split
  next hcr =>
    refine ⟨List.Pairwise.nil, ?_⟩
    intro h
    rw [hcr] at h
    exact Bool.noConfusion h
  next hcr =>
    dsimp only
    exact ⟨List.sorted_insertionSort snapLE _,
      fun _ => List.perm_insertionSort snapLE _⟩

/-- Witness for C8 (amended) at a concrete input. -/
theorem list_recovery_sorted_witness :
    List.Pairwise snapLE (list_recovery rtC8 5 100).1 ∧
    List.Perm (list_recovery rtC8 5 100).1
      ((pruneJournal rtC8 100).filterMap fun e => e.content.map toSnapshot) :=
  ⟨(list_recovery_sorted_newest_first rtC8 5 100).1,
   (list_recovery_sorted_newest_first rtC8 5 100).2 rfl⟩

/-- C10 (the claim fails on the code): when both `enabled` and
`crash_recovery` are false, `status()` returns `Disabled` even though the
session has a recorded flush failure, so the claim "whenever the active
session has a recorded last flush failure, status() returns Error" does not
hold at this state. -/
theorem status_disabled_overrides_recorded_error :
    rtC10.session = some sesC10 ∧
    sesC10.last_error = some { message := "boom", occurred_at := 5 } ∧
    status rtC10 0 = .disabled ∧
    status rtC10 0 ≠ .error 1 "boom" 5 := by decide

/-- C10 amended: provided autosave or crash recovery is enabled (so status
is not short-circuited to `Disabled`), a recorded failure makes `status()`
report `Error` with its message and time even when the session is dirty;
`Pending` is returned only when the session is dirty with no recorded
failure; and an `update_buffer` that actually replaces the buffer (matching
note id, changed contents) clears the recorded failure, moving the status
to `Pending`. -/
theorem status_error_priority_and_update_clears_failure
    (rt : AutoSaveRuntime) (s : Session) (wall : Int)
    (hflag : rt.enabled = true ∨ rt.crash_recovery = true) (hs : rt.session = some s) :
    (∀ f, s.last_error = some f → status rt wall = .error s.note_id f.message f.occurred_at) ∧
    (∀ n since, status rt wall = .pending n since → s.dirty = true ∧ s.last_error = none) ∧
    (∀ (c : String) (mono : Nat), c ≠ s.buffer →
      (update_buffer rt s.note_id c mono wall).session.map Session.last_error = some none ∧
      status (update_buffer rt s.note_id c mono wall) wall = .pending s.note_id wall) := by
  refine ⟨?_, ?_, ?_⟩
  · intro f herr
    exact status_error rt s f wall hflag hs herr
  · intro n since hp
    exact status_pending_inv rt s wall hs n since hp
  · intro c mono hne
    have hupd := update_buffer_changes rt s s.note_id c mono wall hs rfl (fun h => hne h.symm)
    rw [hupd]
    refine ⟨rfl, ?_⟩
    exact status_pending
      { rt with
          session := some (Session.mark_dirty_now { s with buffer := c } mono wall)
          journal := if rt.crash_recovery then writeSnapshot rt.journal s.note_id wall c
                     else rt.journal }
      (Session.mark_dirty_now { s with buffer := c } mono wall) wall hflag rfl rfl rfl

/-- Witness for C10 (amended) at a concrete input: an enabled runtime whose
session records failure ("x" at time 3); its status is `Error`, and a real
buffer replacement moves the status to `Pending`. -/
theorem status_error_priority_witness :
    status rtC10w 9 = .error 2 "x" 3 ∧
    (update_buffer rtC10w 2 "new" 5 9).session.map Session.last_error = some none ∧
    status (update_buffer rtC10w 2 "new" 5 9) 9 = .pending 2 9 :=
  have h := status_error_priority_and_update_clears_failure rtC10w sesC10w 9
    (Or.inl rfl) rfl
  have h3 := h.2.2 "new" 5 (by decide)
  ⟨h.1 { message := "x", occurred_at := 3 } rfl, h3.1, h3.2⟩

end NotesApp
